import Mathlib

/-!
Shallow embedding, in Lean 4, of the retrieval-and-ranking core of the
`pickmyelective` repository (course-recommendation RAG pipeline), together
with proofs settling the frozen specification claims C1 to C10.

The embedding translates the Python sources:
  - `src/rag/src/processing/preprocessor.py` (WQB parsing, exclusion
    filtering, elective scoring),
  - `src/rag/src/transform/transformer.py` (document formatting, metadata
    extraction),
  - `src/rag/src/index/indexer.py` (flat metadata preparation),
  - `src/rag/src/query/engine.py` (query interpretation, post-filtering,
    scoring, sorting, recommendation assembly).

Machine reals are modelled as exact rationals (`ℚ`); Python strings as
Lean `String`, with Python string primitives re-implemented over
`List Char` so that every definition is kernel-computable. Fallible
Python code (uncaught exceptions) is modelled with `Except`.
-/

namespace PickMyElective

/-! ## Python string primitives

Python's `str` operations used by the sources, re-implemented with
kernel-computable (structural or fuel-based) recursion. The Unicode-aware
parts of Python (`str.lower`, `\w`, `str.strip`) are modelled on the ASCII
range, which covers every string the pipeline manipulates.
-/

/-- `pyStartsWith pat s` : does the char list `s` start with `pat`? -/
def pyStartsWith : List Char → List Char → Bool
  | [], _ => true
  | _ :: _, [] => false
  | p :: ps, c :: cs => p == c && pyStartsWith ps cs

/-- Fuel-based worker for Python `str.split(sep)` with nonempty `sep`:
left-to-right scan, non-overlapping matches, keeps empty segments. -/
def pySplitF (sep : List Char) : Nat → List Char → List Char → List (List Char)
  | _, [], acc => [acc.reverse]
  | 0, s, acc => [acc.reverse ++ s]
  | fuel + 1, c :: rest, acc =>
      if !sep.isEmpty && pyStartsWith sep (c :: rest) then
        acc.reverse :: pySplitF sep fuel ((c :: rest).drop sep.length) []
      else
        pySplitF sep fuel rest (c :: acc)

/-- Python `s.split(sep)` for a nonempty separator (the sources only split
on `","` and `"\n\n"`).  `"".split(",") = [""]`, empty segments kept. -/
def pySplit (s sep : String) : List String :=
  (pySplitF sep.data (s.data.length + 1) s.data []).map String.mk

/-- Python `sep.join(xs)`. -/
def pyJoin (sep : String) (xs : List String) : String :=
  String.intercalate sep xs

/-- The whitespace characters of Python's `str.strip()` / `\s` (ASCII). -/
def pyIsSpace (c : Char) : Bool :=
  c == ' ' || c == '\t' || c == '\n' || c == '\r' || c == '\x0b' || c == '\x0c'

/-- Python `s.strip()` (ASCII whitespace). -/
def pyStrip (s : String) : String :=
  String.mk (((s.data.dropWhile pyIsSpace).reverse.dropWhile pyIsSpace).reverse)

/-- ASCII lowercase of one character (models Python `str.lower` on the
ASCII range, which covers all strings handled by the pipeline). -/
def asciiLower (c : Char) : Char :=
  if 'A' ≤ c && c ≤ 'Z' then Char.ofNat (c.toNat + 32) else c

/-- Python `s.lower()` (ASCII). -/
def pyLower (s : String) : String := String.mk (s.data.map asciiLower)

/-- Fuel-free substring scan: does `pat` occur inside `s`? -/
def pyContainsSubAux (pat : List Char) : List Char → Bool
  | [] => pyStartsWith pat []
  | c :: rest => pyStartsWith pat (c :: rest) || pyContainsSubAux pat rest

/-- Python `pat in s` (substring containment). -/
def pyContainsSub (s pat : String) : Bool := pyContainsSubAux pat.data s.data

/-- Python `s.endswith(t)`. -/
def pyEndsWith (s t : String) : Bool :=
  pyStartsWith t.data.reverse s.data.reverse

/-! ## Preprocessor data model (`src/rag/src/processing/models.py`) -/

/-- WQB designation codes (`WQBCode` in `processing/models.py`). -/
inductive WQBCode where
  | Q
  | W
  | B_SCI
  | B_SOC
  | B_HUM
deriving DecidableEq, BEq

/-- The string value of a `WQBCode` (the `str`-enum values). -/
def WQBCode.value : WQBCode → String
  | .Q => "Q"
  | .W => "W"
  | .B_SCI => "B-Sci"
  | .B_SOC => "B-Soc"
  | .B_HUM => "B-Hum"

/-- Prerequisite difficulty classification (`PrerequisiteLevel`). -/
inductive PrerequisiteLevel where
  | NONE
  | RECOMMENDED
  | REQUIRED
deriving DecidableEq, BEq

/-- The string value of a `PrerequisiteLevel`. -/
def PrerequisiteLevel.value : PrerequisiteLevel → String
  | .NONE => "none"
  | .RECOMMENDED => "recommended"
  | .REQUIRED => "required"

/-- Reason a course was excluded (`ExclusionReason`). -/
inductive ExclusionReason where
  | GRADUATE
  | UPPER_DIVISION
  | NO_DESCRIPTION
  | COOP
  | PRACTICUM
  | THESIS
  | DIRECTED_STUDIES
  | CAPSTONE
  | SPECIAL_TOPICS
  | PROJECT
  | HONOURS
deriving DecidableEq, BEq

/-- A deduplicated, processed course (`ProcessedCourse` in
`processing/models.py`); only the fields the preprocessor logic reads.
Python `int` fields are modelled as `Int`; `total_capacity` is a sum of
nonnegative parsed capacities, kept as `Int` for fidelity. -/
structure ProcessedCourse where
  course_code : String
  department : String
  course_number : String
  level : Int
  title : String
  description : String
  units : Int
  wqb : List WQBCode
  has_wqb : Bool
  prerequisites_raw : String
  prerequisite_level : PrerequisiteLevel
  has_prerequisites : Bool
  campuses : List String
  delivery_methods : List String
  instructors : List String
  sections : List String
  total_capacity : Int
deriving DecidableEq

/-! ## WQB parsing and elective scoring (`processing/preprocessor.py`) -/

/-- `WQB_PATTERNS` (`preprocessor.py` lines 29-40), in Python dict
insertion order. -/
def WQB_PATTERNS : List (String × WQBCode) :=
  [("Quantitative", .Q),
   ("Writing", .W),
   ("Breadth-Science", .B_SCI),
   ("Breadth-Sci", .B_SCI),
   ("B-Sci", .B_SCI),
   ("Breadth-Social", .B_SOC),
   ("B-Soc", .B_SOC),
   ("Breadth-Humanities", .B_HUM),
   ("Breadth-Hum", .B_HUM),
   ("B-Hum", .B_HUM)]

/-- `parse_wqb` (`preprocessor.py` lines 43-53): collect, in pattern
order, each code whose pattern occurs in the designation, skipping
duplicates. An empty designation yields `[]` (the Python early return
coincides with the fold producing `[]`). -/
def parse_wqb (designation : String) : List WQBCode :=
  WQB_PATTERNS.foldl
    (fun codes pc =>
      if pyContainsSub designation pc.1 && !(codes.contains pc.2) then
        codes ++ [pc.2]
      else codes)
    []

/-- `calculate_elective_score` (`preprocessor.py` lines 189-231): the
elective-friendliness score. All contributions are nonnegative, so the
Python `int` is modelled as `Nat`. -/
def calculate_elective_score (course : ProcessedCourse) : Nat :=
  (if !course.has_prerequisites then 5 else 0)
  + 5 * course.wqb.length
  + (if course.level = 100 then 5 else if course.level = 200 then 3 else 0)
  + (if course.total_capacity ≥ 200 then 3
     else if course.total_capacity ≥ 100 then 2
     else if course.total_capacity ≥ 50 then 1 else 0)
  + (if !course.instructors.isEmpty then 1 else 0)
  + (if course.delivery_methods.length > 1 then 1 else 0)
  + (if course.campuses.length > 1 then 1 else 0)

/-! ## Exclusion filtering (`preprocessor.py` lines 150-182)

The title patterns of `EXCLUSION_PATTERNS` are regular expressions over
literal words with optional `\b` word boundaries, alternation, and one
end-anchored pattern; each is compiled here into an equivalent explicit
matcher over the lowercased title (`re.IGNORECASE` on the all-lowercase
patterns is modelled by lowercasing the title). `\w` is modelled as ASCII
alphanumeric or underscore, which covers the course titles involved.
-/

/-- A regex word character (`\w`, ASCII range). -/
def isWordChar (c : Char) : Bool := c.isAlphanum || c == '_'

/-- Does `pat` match at the head of `s`, with word boundaries required
before (`nb`) and/or after (`na`)? `prev` is the character preceding `s`
in the scanned text (`none` at the start of the text). -/
def matchHere (nb na : Bool) (pat : List Char) (prev : Option Char) (s : List Char) : Bool :=
  (!nb || (match prev with | none => true | some c => !isWordChar c))
  && pyStartsWith pat s
  && (!na || (match s.drop pat.length with
              | [] => true
              | c :: _ => !isWordChar c))

/-- `re.search` of a literal pattern with optional word boundaries. -/
def searchBnd (nb na : Bool) (pat : List Char) : Option Char → List Char → Bool
  | _, [] => false
  | prev, c :: rest =>
      matchHere nb na pat prev (c :: rest) || searchBnd nb na pat (some c) rest

/-- `re.search(pat, s)` for a literal pattern with optional `\b` at either
end, on a whole string. -/
def pySearchBnd (nb na : Bool) (pat : String) (s : String) : Bool :=
  searchBnd nb na pat.data none s.data

/-- Matcher for `r"co-?op\b"`: either spelling, boundary after. -/
def coopMatch (t : String) : Bool :=
  pySearchBnd false true "coop" t || pySearchBnd false true "co-op" t

/-- Matcher for `r"directed (study|studies|reading)"`. -/
def directedMatch (t : String) : Bool :=
  pyContainsSub t "directed study" || pyContainsSub t "directed studies"
    || pyContainsSub t "directed reading"

/-- Matcher for `r"honours (essay|project|thesis)"`. -/
def honoursMatch (t : String) : Bool :=
  pyContainsSub t "honours essay" || pyContainsSub t "honours project"
    || pyContainsSub t "honours thesis"

/-- The optional trailing roman/decimal numerals of the project pattern. -/
def projectNumerals : List String :=
  ["", "i", "ii", "iii", "iv", "v", "1", "2", "3", "4", "5"]

/-- Python `s[:len(s)-n]` — drop the last `n` characters. -/
def dropLastChars (s : String) (n : Nat) : String :=
  String.mk (s.data.take (s.data.length - n))

/-- Drop trailing `\s` characters. -/
def dropTrailingSpace (s : String) : String :=
  String.mk ((s.data.reverse.dropWhile pyIsSpace).reverse)

/-- Matcher for `r"(graduate |grad )?project\s*(i|ii|iii|iv|v|1|2|3|4|5)?$"`:
a match exists iff the text ends with `project`, then whitespace, then one
of the optional numerals (the optional `graduate `/`grad ` prefix never
affects existence of a match, since the group is optional). -/
def projectMatch (t : String) : Bool :=
  projectNumerals.any (fun numeral =>
    pyEndsWith t numeral
      && pyEndsWith (dropTrailingSpace (dropLastChars t numeral.data.length)) "project")

/-- `EXCLUSION_PATTERNS` (`preprocessor.py` lines 150-159) as an ordered
list of (matcher over the lowercased title, reason). -/
def EXCLUSION_PATTERNS : List ((String → Bool) × ExclusionReason) :=
  [(coopMatch, .COOP),
   (fun t => pySearchBnd true true "practicum" t, .PRACTICUM),
   (fun t => pySearchBnd true true "thesis" t, .THESIS),
   (directedMatch, .DIRECTED_STUDIES),
   (fun t => pySearchBnd true true "capstone" t, .CAPSTONE),
   (fun t => pyContainsSub t "special topics", .SPECIAL_TOPICS),
   (honoursMatch, .HONOURS),
   (projectMatch, .PROJECT)]

/-- First matching exclusion pattern on a title, in list order
(the `for pattern, reason in EXCLUSION_PATTERNS` loop). -/
def title_exclusion (title : String) : Option ExclusionReason :=
  let t := pyLower title
  (EXCLUSION_PATTERNS.find? (fun pr => pr.1 t)).map Prod.snd

/-- `check_exclusion` (`preprocessor.py` lines 162-182). -/
def check_exclusion (course : ProcessedCourse) : Option ExclusionReason :=
  if course.level ≥ 600 then some .GRADUATE
  else if course.level ≥ 400 then some .UPPER_DIVISION
  else if pyStrip course.description = "" then some .NO_DESCRIPTION
  else title_exclusion course.title

/-! ## Transformer (`src/rag/src/transform/`) -/

/-- Filterable metadata for the index (`CourseMetadata` in
`transform/models.py`). -/
structure CourseMetadata where
  department : String
  level : Int
  units : Int
  campuses : List String
  wqb : List String
  has_wqb : Bool
  has_prerequisites : Bool
  prerequisite_level : String
  prerequisites_raw : String
  delivery_methods : List String
  instructors : List String
  sections : List String
  elective_score : Int
  total_capacity : Int
deriving DecidableEq

/-- A course transformed and ready for embedding (`TransformedCourse`). -/
structure TransformedCourse where
  id : String
  course_code : String
  title : String
  document : String
  keywords : List String
  metadata : CourseMetadata
deriving DecidableEq

/-- `CourseTransformer.extract_metadata` (`transformer.py` lines 112-129). -/
def extract_metadata (course : ProcessedCourse) (elective_score : Nat) : CourseMetadata :=
  { department := course.department
    level := course.level
    units := course.units
    campuses := course.campuses
    wqb := course.wqb.map WQBCode.value
    has_wqb := course.has_wqb
    has_prerequisites := course.has_prerequisites
    prerequisite_level := course.prerequisite_level.value
    prerequisites_raw := course.prerequisites_raw
    delivery_methods := course.delivery_methods
    instructors := course.instructors
    sections := course.sections
    elective_score := elective_score
    total_capacity := course.total_capacity }

/-- Python `s[:n]` — the first `n` characters of a string. -/
def takeChars (s : String) (n : Nat) : String := String.mk (s.data.take n)

/-- `CourseTransformer.format_document_text` (`transformer.py` lines
64-110): the document string stored in the index for one course. -/
def format_document_text (course : ProcessedCourse) (keywords : List String) : String :=
  let header := course.course_code ++ " - " ++ course.title
  let metaLine := pyJoin " | "
    ["Department: " ++ course.department,
     "Level: " ++ toString course.level,
     "Units: " ++ toString course.units]
  let availParts :=
    (if !course.campuses.isEmpty then
       ["Campus: " ++ pyJoin ", " course.campuses] else [])
    ++ (if !course.delivery_methods.isEmpty then
          ["Delivery: " ++ pyJoin ", " course.delivery_methods] else [])
  let availLines := if !availParts.isEmpty then [pyJoin " | " availParts] else []
  let wqbStr :=
    if !course.wqb.isEmpty then pyJoin ", " (course.wqb.map WQBCode.value) else "None"
  let prereqStr :=
    if !course.has_prerequisites then "None"
    else if course.prerequisites_raw ≠ "" then
      takeChars course.prerequisites_raw 200
        ++ (if course.prerequisites_raw.data.length > 200 then "..." else "")
    else "Required"
  let keywordLines :=
    if !keywords.isEmpty then
      ["", "Good for students interested in: " ++ pyJoin ", " keywords]
    else []
  pyJoin "\n"
    ([header, metaLine] ++ availLines
      ++ ["WQB: " ++ wqbStr ++ " | Prerequisites: " ++ prereqStr]
      ++ ["", course.description]
      ++ keywordLines)

/-! ## Indexer (`src/rag/src/index/indexer.py`) -/

/-- A value stored in the index's flat metadata map (Python scalars). -/
inductive MetaValue where
  | s (v : String)
  | i (v : Int)
  | b (v : Bool)
deriving DecidableEq

/-- The flat metadata map stored per course (a Python dict with
string keys and scalar values). -/
abbrev Metadata := List (String × MetaValue)

/-- `CourseIndexer._prepare_metadata` (`indexer.py` lines 93-115): the
exact flat record stored per course, in source order. -/
def prepare_metadata (course : TransformedCourse) : Metadata :=
  [("course_code", .s course.course_code),
   ("title", .s course.title),
   ("department", .s course.metadata.department),
   ("level", .i course.metadata.level),
   ("units", .i course.metadata.units),
   ("elective_score", .i course.metadata.elective_score),
   ("total_capacity", .i course.metadata.total_capacity),
   ("has_wqb", .b course.metadata.has_wqb),
   ("has_prerequisites", .b course.metadata.has_prerequisites),
   ("campuses", .s (pyJoin "," course.metadata.campuses)),
   ("wqb", .s (pyJoin "," course.metadata.wqb)),
   ("delivery_methods", .s (pyJoin "," course.metadata.delivery_methods)),
   ("prerequisite_level", .s course.metadata.prerequisite_level),
   ("keywords", .s (pyJoin "," course.keywords))]

/-- Modelled from the spec (section 6, metadata field contract): the
field names the spec asserts are stored per course in the index. This
definition follows the spec's words, for comparison against
`prepare_metadata`, which is translated from the source. -/
def specMetadataFieldContract : List String :=
  ["course_code", "title", "department", "level", "units", "elective_score",
   "total_capacity", "has_wqb", "has_prerequisites", "campuses", "wqb",
   "delivery_methods", "prerequisite_level", "prerequisites_raw",
   "instructors", "keywords"]

/-! ## Query engine data model (`src/rag/src/query/`) -/

/-- `QueryFilters` (`query/models.py`): all fields optional, `none`
meaning no constraint (Python `None`). -/
structure QueryFilters where
  campus : Option (List String) := none
  wqb : Option (List String) := none
  max_level : Option Int := none
  no_prerequisites : Option Bool := none
  exclude_departments : Option (List String) := none

/-- `QueryInterpretation` (`query/models.py`). -/
structure QueryInterpretation where
  topics : List String
  interpretation : String
deriving DecidableEq

/-- A retrieval candidate as built by `QueryEngine.search_courses`
(`engine.py` lines 249-259): a course dict with id, document, metadata,
relevance score and combined score. -/
structure Candidate where
  id : String
  document : String
  metadata : Metadata
  relevance_score : ℚ
  combined_score : ℚ
deriving DecidableEq

/-- One entry returned by the index query (`collection.query`): id,
document, metadata and raw distance. -/
structure IndexEntry where
  id : String
  document : String
  metadata : Metadata
  distance : ℚ
deriving DecidableEq

/-- `CourseResult` (`query/models.py`): one course in the response. -/
structure CourseResult where
  course_code : String
  title : String
  description : String
  campus : List String
  wqb : List String
  units : Int
  prerequisites : String
  has_prerequisites : Bool
  instructor : String
  delivery_methods : List String
  relevance_score : ℚ
  match_reason : String
deriving DecidableEq

/-- `RecommendResponse` (`query/models.py`). -/
structure RecommendResponse where
  success : Bool
  query_interpretation : String
  courses : List CourseResult
deriving DecidableEq

/-- Python `metadata.get(key, default)` on the flat metadata dict
(keys are unique in every dict the engine reads). -/
def metaLookup (m : Metadata) (k : String) : Option MetaValue :=
  (m.find? (fun p => p.1 == k)).map Prod.snd

/-- `metadata.get(key, default)` at a string-typed key; every call site in
`engine.py` reads a key that, when present, holds a string. -/
def metaGetStr (m : Metadata) (k : String) (d : String) : String :=
  match metaLookup m k with
  | some (.s v) => v
  | _ => d

/-- `metadata.get(key, default)` at an int-typed key. -/
def metaGetInt (m : Metadata) (k : String) (d : Int) : Int :=
  match metaLookup m k with
  | some (.i v) => v
  | _ => d

/-- `metadata.get(key, default)` at a bool-typed key. -/
def metaGetBool (m : Metadata) (k : String) (d : Bool) : Bool :=
  match metaLookup m k with
  | some (.b v) => v
  | _ => d

/-! ## Post-filtering (`engine.py` lines 165-196) -/

/-- The delimiter-split metadata values of a comma-joined field:
`[c.strip() for c in s.split(",") if c.strip()]` (`engine.py` lines
177 and 184). -/
def splitStripped (s : String) : List String :=
  ((pySplit s ",").map pyStrip).filter (fun x => x ≠ "")

/-- The per-course body of `QueryEngine._post_filter_courses`: `true` iff
the course survives every active list filter (the three `continue`
branches). Python list truthiness: `None` and `[]` are both inactive. -/
def course_passes_filters (filters : QueryFilters) (metadata : Metadata) : Bool :=
  (match filters.campus with
   | none => true
   | some cs =>
       if cs.isEmpty then true
       else cs.any (fun c =>
         (splitStripped (metaGetStr metadata "campuses" "")).contains c))
  && (match filters.wqb with
      | none => true
      | some ws =>
          if ws.isEmpty then true
          else ws.any (fun w =>
            (splitStripped (metaGetStr metadata "wqb" "")).contains w))
  && (match filters.exclude_departments with
      | none => true
      | some ds =>
          if ds.isEmpty then true
          else !(ds.contains (metaGetStr metadata "department" "")))

/-- `QueryEngine._post_filter_courses` (`engine.py` lines 165-196). -/
def post_filter_courses (courses : List Candidate) (filters : QueryFilters) :
    List Candidate :=
  courses.filter (fun c => course_passes_filters filters c.metadata)

/-! ## Scoring and sorting (`engine.py` lines 20-24 and 229-267) -/

/-- `RELEVANCE_WEIGHT` (`engine.py` line 22). -/
def RELEVANCE_WEIGHT : ℚ := 80 / 100

/-- `ELECTIVE_WEIGHT` (`engine.py` line 23). -/
def ELECTIVE_WEIGHT : ℚ := 20 / 100

/-- `MAX_ELECTIVE_SCORE` (`engine.py` line 24). -/
def MAX_ELECTIVE_SCORE : ℚ := 25

/-- `relevance_score = max(0, min(1, 1 - distance))` (`engine.py` line 239). -/
def relevance_of_distance (distance : ℚ) : ℚ :=
  max 0 (min 1 (1 - distance))

/-- One candidate dict built by `search_courses` from an index entry
(`engine.py` lines 232-259). -/
def mkCandidate (e : IndexEntry) : Candidate :=
  let relevance := relevance_of_distance e.distance
  let elective : Int := metaGetInt e.metadata "elective_score" 0
  let normalized : ℚ := (elective : ℚ) / MAX_ELECTIVE_SCORE
  { id := e.id
    document := e.document
    metadata := e.metadata
    relevance_score := relevance
    combined_score := RELEVANCE_WEIGHT * relevance + ELECTIVE_WEIGHT * normalized }

/-- Comparison on position-tagged candidates realizing Python's stable
`courses.sort(key=lambda c: c["combined_score"], reverse=True)`
(`engine.py` line 265): a stable descending sort orders by combined score
descending with ties by original position ascending. -/
def sort_le (a b : Nat × Candidate) : Bool :=
  decide (b.2.combined_score < a.2.combined_score
    ∨ (a.2.combined_score = b.2.combined_score ∧ a.1 ≤ b.1))

/-- The stable descending sort of the candidate list (`engine.py` line 265). -/
def py_sort_desc (l : List Candidate) : List Candidate :=
  (l.enum.mergeSort sort_le).map Prod.snd

/-- The pure core of `QueryEngine.search_courses` (`engine.py` lines
229-267), given the entries the index query returned: build candidates,
post-filter, sort by combined score descending (stable), truncate to
`n_results`. -/
def search_courses (entries : List IndexEntry) (filters : QueryFilters)
    (n_results : Nat) : List Candidate :=
  ((py_sort_desc (post_filter_courses (entries.map mkCandidate) filters)).take
    n_results)

/-! ## JSON values and `json.loads` (environment model)

`QueryEngine.interpret_query` calls `json.loads` on the model output.
The JSON value domain and a parser for the JSON grammar are modelled here
(Python's `json.loads` on finite numbers; the `NaN`/`Infinity` extensions
and Unicode surrogate pairing are outside the modelled fragment, and are
never relevant to the claims).
-/

/-- A parsed JSON value (the result domain of `json.loads`). -/
inductive JValue where
  | null
  | b (v : Bool)
  | num (v : ℚ)
  | str (v : String)
  | arr (items : List JValue)
  | obj (members : List (String × JValue))

/-- Skip JSON whitespace. -/
def jsonSkipWs (s : List Char) : List Char :=
  s.dropWhile (fun c => c == ' ' || c == '\t' || c == '\n' || c == '\r')

/-- Value of one hex digit of a `\u` escape (by code point: `0-9`,
`a-f`, `A-F`). -/
def hexDigitVal (c : Char) : Option Nat :=
  let n := c.toNat
  if 48 ≤ n && n ≤ 57 then some (n - 48)
  else if 97 ≤ n && n ≤ 102 then some (n - 87)
  else if 65 ≤ n && n ≤ 70 then some (n - 55)
  else none

/-- Accumulator worker reading a decimal digit run. -/
def decAccum : List Char → Nat → Nat
  | [], acc => acc
  | c :: cs, acc => decAccum cs (10 * acc + (c.toNat - 48))

/-- Decimal digits to a natural number. -/
def digitsToNat (ds : List Char) : Nat := decAccum ds 0

/-- Parse a JSON number (strict grammar: `-?(0|[1-9][0-9]*)(.[0-9]+)?([eE][+-]?[0-9]+)?`). -/
def parseJNumber (s : List Char) : Option (ℚ × List Char) :=
  let (neg, s1) := match s with
    | '-' :: r => (true, r)
    | _ => (false, s)
  let intPart : Option (Nat × List Char) := match s1 with
    | '0' :: r => some (0, r)
    | c :: _ =>
        if c.isDigit then
          some (digitsToNat (s1.takeWhile Char.isDigit), s1.dropWhile Char.isDigit)
        else none
    | [] => none
  match intPart with
  | none => none
  | some (ip, s2) =>
    let fracPart : Option (ℚ × List Char) := match s2 with
      | '.' :: r =>
          let ds := r.takeWhile Char.isDigit
          if ds.isEmpty then none
          else some ((digitsToNat ds : ℚ) / (10 : ℚ) ^ ds.length, r.dropWhile Char.isDigit)
      | _ => some (0, s2)
    match fracPart with
    | none => none
    | some (fp, s3) =>
      let expPart : Option (Int × List Char) := match s3 with
        | e :: r =>
            if e == 'e' || e == 'E' then
              let (eneg, r2) := match r with
                | '+' :: r2 => (false, r2)
                | '-' :: r2 => (true, r2)
                | _ => (false, r)
              let ds := r2.takeWhile Char.isDigit
              if ds.isEmpty then none
              else some ((if eneg then -(digitsToNat ds : Int) else (digitsToNat ds : Int)),
                         r2.dropWhile Char.isDigit)
            else some (0, s3)
        | [] => some (0, s3)
      match expPart with
      | none => none
      | some (ex, s4) =>
        let base : ℚ := (ip : ℚ) + fp
        let scaled : ℚ :=
          if 0 ≤ ex then base * (10 : ℚ) ^ ex.toNat else base / (10 : ℚ) ^ (-ex).toNat
        some ((if neg then -scaled else scaled), s4)

mutual

/-- Parse one JSON value (fuel-based recursive-descent). -/
def parseJValue : Nat → List Char → Option (JValue × List Char)
  | 0, _ => none
  | fuel + 1, input =>
    match jsonSkipWs input with
    | [] => none
    | c :: rest =>
      if c == '\x7b' then
        match jsonSkipWs rest with
        | '\x7d' :: rest2 => some (.obj [], rest2)
        | rest2 => (parseObjMembers fuel rest2).map (fun p => (JValue.obj p.1, p.2))
      else if c == '[' then
        match jsonSkipWs rest with
        | ']' :: rest2 => some (.arr [], rest2)
        | rest2 => (parseArrayItems fuel rest2).map (fun p => (JValue.arr p.1, p.2))
      else if c == '"' then
        (parseJString fuel rest []).map (fun p => (JValue.str p.1, p.2))
      else if pyStartsWith "true".data (c :: rest) then
        some (.b true, (c :: rest).drop 4)
      else if pyStartsWith "false".data (c :: rest) then
        some (.b false, (c :: rest).drop 5)
      else if pyStartsWith "null".data (c :: rest) then
        some (.null, (c :: rest).drop 4)
      else
        (parseJNumber (c :: rest)).map (fun p => (JValue.num p.1, p.2))

/-- Parse the items of a nonempty JSON array, after the opening bracket. -/
def parseArrayItems : Nat → List Char → Option (List JValue × List Char)
  | 0, _ => none
  | fuel + 1, s =>
    match parseJValue fuel s with
    | none => none
    | some (v, rest) =>
      match jsonSkipWs rest with
      | ',' :: rest2 => (parseArrayItems fuel rest2).map (fun p => (v :: p.1, p.2))
      | ']' :: rest2 => some ([v], rest2)
      | _ => none

/-- Parse the members of a nonempty JSON object, after the opening brace. -/
def parseObjMembers : Nat → List Char → Option (List (String × JValue) × List Char)
  | 0, _ => none
  | fuel + 1, s =>
    match jsonSkipWs s with
    | '"' :: rest =>
      match parseJString fuel rest [] with
      | none => none
      | some (key, rest2) =>
        match jsonSkipWs rest2 with
        | ':' :: rest3 =>
          match parseJValue fuel rest3 with
          | none => none
          | some (v, rest4) =>
            match jsonSkipWs rest4 with
            | ',' :: rest5 => (parseObjMembers fuel rest5).map (fun p => ((key, v) :: p.1, p.2))
            | '\x7d' :: rest5 => some ([(key, v)], rest5)
            | _ => none
        | _ => none
    | _ => none

/-- Parse a JSON string body, after the opening quote. -/
def parseJString : Nat → List Char → List Char → Option (String × List Char)
  | 0, _, _ => none
  | fuel + 1, s, acc =>
    match s with
    | [] => none
    | '"' :: rest => some (String.mk acc.reverse, rest)
    | '\\' :: e :: rest =>
        if e == '"' then parseJString fuel rest ('"' :: acc)
        else if e == '\\' then parseJString fuel rest ('\\' :: acc)
        else if e == '/' then parseJString fuel rest ('/' :: acc)
        else if e == 'b' then parseJString fuel rest ('\x08' :: acc)
        else if e == 'f' then parseJString fuel rest ('\x0c' :: acc)
        else if e == 'n' then parseJString fuel rest ('\n' :: acc)
        else if e == 'r' then parseJString fuel rest ('\r' :: acc)
        else if e == 't' then parseJString fuel rest ('\t' :: acc)
        else if e == 'u' then
          match rest with
          | h1 :: h2 :: h3 :: h4 :: rest2 =>
            match hexDigitVal h1, hexDigitVal h2, hexDigitVal h3, hexDigitVal h4 with
            | some a, some b, some c, some d =>
                parseJString fuel rest2
                  (Char.ofNat (((a * 16 + b) * 16 + c) * 16 + d) :: acc)
            | _, _, _, _ => none
          | _ => none
        else none
    | '\\' :: [] => none
    | c :: rest =>
        if c.toNat < 32 then none else parseJString fuel rest (c :: acc)

end

/-- `json.loads(content)`: parse one value, demand only trailing
whitespace after it; `none` models `json.JSONDecodeError`. -/
def json_loads (content : String) : Option JValue :=
  match parseJValue (content.data.length * 4 + 16) content.data with
  | some (v, rest) => if jsonSkipWs rest = [] then some v else none
  | none => none

/-! ## Query interpretation (`engine.py` lines 104-131) -/

/-- The uncaught Python exceptions of the modelled request path. -/
inductive PyErr where
  | attributeError
  | validationError
  | apiError
deriving DecidableEq

/-- `content = response.text or "\x7b\x7d"` (`engine.py` line 117): a
missing or empty model text is replaced by the empty JSON object. -/
def response_text_or_empty_obj (t : Option String) : String :=
  match t with
  | none => "\x7b\x7d"
  | some s => if s = "" then "\x7b\x7d" else s

/-- Python `dict.get(k, d)` on a dict built from parsed JSON object
members (a duplicate key keeps its last binding). -/
def pyDictGet (members : List (String × JValue)) (k : String) (d : JValue) : JValue :=
  match members.reverse.find? (fun p => p.1 == k) with
  | some p => p.2
  | none => d

/-- Pydantic validation of `topics: list[str]` — accepts exactly a JSON
array of strings. -/
def validateStrList : JValue → Option (List String)
  | .arr items =>
      items.foldr
        (fun it acc =>
          match it, acc with
          | .str s, some l => some (s :: l)
          | _, _ => none)
        (some [])
  | _ => none

/-- Pydantic validation of `interpretation: str` — accepts exactly a
JSON string. -/
def validateStr : JValue → Option String
  | .str s => some s
  | _ => none

/-- `QueryEngine.interpret_query` (`engine.py` lines 104-131), the pure
part after the model call (the model call is abstracted to its returned
text). The `try` around parsing catches only `json.JSONDecodeError`; a
parsed non-object raises `AttributeError` at `data.get`, and an object
with wrongly-typed fields raises a pydantic `ValidationError` — neither
is caught. -/
def interpret_query (query : String) (modelText : Option String) :
    Except PyErr QueryInterpretation :=
  let content := response_text_or_empty_obj modelText
  match json_loads content with
  | none =>
      .ok { topics := [query]
            interpretation := "Looking for courses related to: " ++ query }
  | some (.obj members) =>
      let topicsJ := pyDictGet members "topics" (.arr [])
      let interpJ := pyDictGet members "interpretation" (.str "")
      match validateStrList topicsJ, validateStr interpJ with
      | some ts, some i => .ok { topics := ts, interpretation := i }
      | _, _ => .error .validationError
  | some _ => .error .attributeError

/-! ## Match-reason generation (`engine.py` lines 269-296) -/

/-- `description[:500] if len(description) > 500 else description`
(`engine.py` line 278). -/
def truncate_description (description : String) : String :=
  if description.data.length > 500 then takeChars description 500 else description

/-- `QueryEngine.generate_match_reason` (`engine.py` lines 269-296) with
the model call abstracted to its outcome: the body has no `try`/`except`,
so a model-call exception propagates; a `None`/empty response text falls
back to the generic sentence through `or`. -/
def generate_match_reason (modelResult : Except PyErr (Option String)) :
    Except PyErr String :=
  match modelResult with
  | .error e => .error e
  | .ok t =>
      .ok (match t with
           | none => "Matches your search interests."
           | some s => if s = "" then "Matches your search interests." else s)

/-! ## Recommendation assembly (`engine.py` lines 298-386) -/

/-- Round half to even on integers (Python `round`'s tie rule),
applied to an exact rational. -/
def roundHalfEven (x : ℚ) : ℤ :=
  if x - ⌊x⌋ < 1 / 2 then ⌊x⌋
  else if (1 : ℚ) / 2 < x - ⌊x⌋ then ⌊x⌋ + 1
  else if Even ⌊x⌋ then ⌊x⌋ else ⌊x⌋ + 1

/-- Python `round(x, 3)`, modelled as exact decimal rounding of the
rational value (half to even). -/
def pyRound3 (x : ℚ) : ℚ := (roundHalfEven (x * 1000) : ℚ) / 1000

/-- Description recovery from the stored document (`engine.py` lines
341-348): split on `"\n\n"` and take `parts[1]`, guarded by a
containment check; otherwise the empty string. -/
def extract_description (document : String) : String :=
  if pyContainsSub document "\n\n" then
    let parts := pySplit document "\n\n"
    if parts.length ≥ 2 then parts.getD 1 "" else ""
  else ""

/-- Modelled from the spec (§4.5 and §6): "splits the document on the
first blank-line (`\n\n`) boundary and takes the second segment" — that
is, everything after the first blank line. Defined from the spec's words
for comparison with `extract_description`, which is translated from the
source. -/
def spec_after_first_blank (document : String) : String :=
  pyJoin "\n\n" ((pySplit document "\n\n").drop 1)

/-- Parse a comma-joined metadata field back to a list (`engine.py` lines
329-339): split without stripping; a missing or empty field yields `[]`. -/
def parse_list_field (m : Metadata) (k : String) : List String :=
  let s := metaGetStr m k ""
  if s ≠ "" then pySplit s "," else []

/-- First instructor (`engine.py` lines 359-364): first comma-separated
entry, stripped; empty if none. -/
def first_instructor (m : Metadata) : String :=
  match parse_list_field m "instructors" with
  | [] => ""
  | i :: _ => pyStrip i

/-- One `CourseResult` assembled by `recommend` (`engine.py` lines
366-379), for a candidate and its generated match reason. -/
def build_course_result (c : Candidate) (match_reason : String) : CourseResult :=
  { course_code := metaGetStr c.metadata "course_code" ""
    title := metaGetStr c.metadata "title" ""
    description := extract_description c.document
    campus := parse_list_field c.metadata "campuses"
    wqb := parse_list_field c.metadata "wqb"
    units := metaGetInt c.metadata "units" 0
    prerequisites := metaGetStr c.metadata "prerequisites_raw" ""
    has_prerequisites := metaGetBool c.metadata "has_prerequisites" false
    instructor := first_instructor c.metadata
    delivery_methods := parse_list_field c.metadata "delivery_methods"
    relevance_score := pyRound3 c.relevance_score
    match_reason := match_reason }

/-- The relevance-threshold step (`engine.py` line 321): keep candidates
with `relevance_score >= min_relevance` (on the unrounded score). -/
def threshold_candidates (candidates : List Candidate) (min_relevance : ℚ) :
    List Candidate :=
  candidates.filter (fun c => min_relevance ≤ c.relevance_score)

/-- The pure core of `QueryEngine.recommend` (`engine.py` lines 298-386)
downstream of retrieval: threshold by minimum relevance, keep the first
`top_k` survivors, build one result per kept candidate (match reasons
abstracted as a function of the candidate), and return a success
response. -/
def recommend_core (interpretation : String) (candidates : List Candidate)
    (top_k : Nat) (min_relevance : ℚ) (reason : Candidate → String) :
    RecommendResponse :=
  let survivors := threshold_candidates candidates min_relevance
  { success := true
    query_interpretation := interpretation
    courses := (survivors.take top_k).map (fun c => build_course_result c (reason c)) }

/-! ## Concrete example inputs used by the claim theorems -/

/-- A designation string carrying all five WQB patterns (each pattern is
one the catalog uses; `parse_wqb` deduplicates into five codes). -/
def designationAllWQB : String :=
  "Writing/Quantitative/Breadth-Science/Breadth-Social/Breadth-Humanities"

/-- A 100-level course that the preprocessor accepts as an elective
candidate (no exclusion applies) and that collects every elective-score
bonus: no prerequisites, five WQB codes, level 100, capacity >= 200, an
instructor, several delivery methods and campuses. -/
def courseAllBonuses : ProcessedCourse :=
  { course_code := "HUM 101"
    department := "HUM"
    course_number := "101"
    level := 100
    title := "Great Ideas in the Humanities"
    description := "Explores great ideas."
    units := 3
    wqb := parse_wqb designationAllWQB
    has_wqb := true
    prerequisites_raw := ""
    prerequisite_level := .NONE
    has_prerequisites := false
    campuses := ["Burnaby", "Surrey"]
    delivery_methods := ["In Person", "Online"]
    instructors := ["Dr. Ada"]
    sections := ["D100"]
    total_capacity := 250 }

/-- A processed course in the documented format (with a nonempty keyword
list), used to exercise document formatting and description recovery. -/
def courseIntroComputing : ProcessedCourse :=
  { course_code := "CMPT 120"
    department := "CMPT"
    course_number := "120"
    level := 100
    title := "Introduction to Computing"
    description := "Introduction to programming."
    units := 3
    wqb := []
    has_wqb := false
    prerequisites_raw := ""
    prerequisite_level := .NONE
    has_prerequisites := false
    campuses := ["Burnaby"]
    delivery_methods := ["In Person"]
    instructors := ["Dr. Smith"]
    sections := ["D100"]
    total_capacity := 100 }

/-- The document text stored in the index for `courseIntroComputing`
with two generated keywords. -/
def docIntroComputing : String :=
  format_document_text courseIntroComputing ["coding", "algorithms"]

/-- A concrete post-filter candidate (metadata shaped like the test
fixture `PHIL 100W` in `tests/conftest.py`). -/
def candidatePhil : Candidate :=
  { id := "phil-100w-2026su"
    document := "PHIL 100W - Introduction to Philosophy\n\nIntro."
    metadata :=
      [("course_code", .s "PHIL 100W"),
       ("department", .s "PHIL"),
       ("campuses", .s "Burnaby,Vancouver"),
       ("wqb", .s "W,B-Hum"),
       ("elective_score", .i 25)]
    relevance_score := 11 / 20
    combined_score := 16 / 25 }

/-- The filters of the spec's end-to-end scenario: Vancouver campus and
CMPT excluded. -/
def filtersVancouverNoCMPT : QueryFilters :=
  { campus := some ["Vancouver"], exclude_departments := some ["CMPT"] }

/-- A candidate whose unrounded relevance 0.30045 passes a 0.3004
threshold but rounds (half-even, 3 decimals) down to 0.300. -/
def candidateNearThreshold : Candidate :=
  { id := "x"
    document := ""
    metadata := []
    relevance_score := 6009 / 20000
    combined_score := 0 }

/-- The response assembled for `candidateNearThreshold` under
`min_relevance = 0.3004`. -/
def responseNearThreshold : RecommendResponse :=
  recommend_core "interp" [candidateNearThreshold] 5 (3004 / 10000) (fun _ => "reason")

/-! ## Claim theorems -/

/-- Claim C1 (code bug): the spec asserts the elective score is an
integer in [0,25] for every preprocessor-accepted course, and the engine
normalizes by `MAX_ELECTIVE_SCORE = 25` ("max possible elective score").
The course `courseAllBonuses` is accepted (no exclusion applies), its
WQB list is produced by `parse_wqb` from a real designation string, and
`calculate_elective_score` gives 41 > 25, so the normalized elective
signal exceeds 1. -/
theorem elective_score_exceeds_spec_bound :
    check_exclusion courseAllBonuses = none
    ∧ courseAllBonuses.wqb = parse_wqb designationAllWQB
    ∧ parse_wqb designationAllWQB = [.Q, .W, .B_SCI, .B_SOC, .B_HUM]
    ∧ calculate_elective_score courseAllBonuses = 41
    ∧ ¬ calculate_elective_score courseAllBonuses ≤ 25
    ∧ 1 < (calculate_elective_score courseAllBonuses : ℚ) / MAX_ELECTIVE_SCORE := by
  have h : calculate_elective_score courseAllBonuses = 41 := by decide
  refine ⟨by decide, rfl, by decide, h, by decide, ?_⟩
  rw [h]
  unfold MAX_ELECTIVE_SCORE
  norm_num

/-- Claim C2 (code bug): the flat metadata record stored per course by
`CourseIndexer._prepare_metadata` holds exactly 14 fields — it omits the
contract's `prerequisites_raw` and `instructors` — so the engine's later
reads of those keys always produce the defaults (empty prerequisites and
empty instructor). -/
theorem prepared_metadata_omits_contract_fields (course : TransformedCourse) :
    (prepare_metadata course).map Prod.fst =
      ["course_code", "title", "department", "level", "units", "elective_score",
       "total_capacity", "has_wqb", "has_prerequisites", "campuses", "wqb",
       "delivery_methods", "prerequisite_level", "keywords"]
    ∧ "prerequisites_raw" ∉ (prepare_metadata course).map Prod.fst
    ∧ "instructors" ∉ (prepare_metadata course).map Prod.fst
    ∧ "prerequisites_raw" ∈ specMetadataFieldContract
    ∧ "instructors" ∈ specMetadataFieldContract
    ∧ metaGetStr (prepare_metadata course) "prerequisites_raw" "" = ""
    ∧ first_instructor (prepare_metadata course) = "" := by
  have hkeys : (prepare_metadata course).map Prod.fst =
      ["course_code", "title", "department", "level", "units", "elective_score",
       "total_capacity", "has_wqb", "has_prerequisites", "campuses", "wqb",
       "delivery_methods", "prerequisite_level", "keywords"] := rfl
  refine ⟨hkeys, ?_, ?_, by decide, by decide, rfl, rfl⟩
  · rw [hkeys]; decide
  · rw [hkeys]; decide

/-- Claim C3 counterexample: the model output `"[]"` parses as JSON (an
empty array), so the `except json.JSONDecodeError` fallback is skipped,
and `interpret_query` raises `AttributeError` at `data.get` instead of
returning the documented fallback. -/
theorem interpret_query_raises_on_nonobject_json :
    json_loads "[]" = some (.arr [])
    ∧ interpret_query "easy electives" (some "[]") = .error .attributeError :=
  ⟨rfl, rfl⟩

/-- Claim C3 (amended): whenever the model output fails to parse as JSON
at all (`json.JSONDecodeError`), `interpret_query` returns exactly
`topics = [query]` with the templated interpretation string, and that is
the stage's sole recovery path; output that parses to a non-object, or an
object with wrongly-typed fields, instead raises an uncaught exception. -/
theorem interpret_query_fallback_only_on_parse_failure
    (query : String) (modelText : Option String)
    (h : json_loads (response_text_or_empty_obj modelText) = none) :
    interpret_query query modelText =
      .ok { topics := [query]
            interpretation := "Looking for courses related to: " ++ query } := by
  simp only [interpret_query]
  rw [h]

/-- Witness for the amended C3 theorem at the unparseable model output
`"oops"`. -/
theorem interpret_query_fallback_witness :
    json_loads (response_text_or_empty_obj (some "oops")) = none
    ∧ interpret_query "easy" (some "oops") =
        .ok { topics := ["easy"]
              interpretation := "Looking for courses related to: easy" } :=
  ⟨rfl, interpret_query_fallback_only_on_parse_failure "easy" (some "oops") rfl⟩

/-- Claim C4 counterexample: `generate_match_reason` has no
`try`/`except`, so a model-call failure propagates to the caller instead
of producing the generic fallback sentence. -/
theorem generate_match_reason_propagates_failure :
    generate_match_reason (.error .apiError) = .error .apiError := rfl

/-- Claim C4 (amended): once the model call returns, the post-processing
never raises: missing or empty model output is replaced by the generic
fallback sentence, nonempty output is returned as-is; a model-call
exception, however, propagates to the caller. -/
theorem generate_match_reason_ok_paths (t : Option String) :
    (generate_match_reason (.ok t)).isOk = true
    ∧ ((t = none ∨ t = some "") →
        generate_match_reason (.ok t) = .ok "Matches your search interests.")
    ∧ (∀ s, t = some s → s ≠ "" → generate_match_reason (.ok t) = .ok s) := by
  refine ⟨?_, ?_, ?_⟩
  · cases t <;> rfl
  · rintro (h | h) <;> subst h <;> rfl
  · rintro s rfl hs
    simp [generate_match_reason, hs]

/-- Witness for the amended C4 theorem at the empty model output. -/
theorem generate_match_reason_ok_paths_witness :
    generate_match_reason (.ok (some "")) = .ok "Matches your search interests." :=
  (generate_match_reason_ok_paths (some "")).2.1 (Or.inr rfl)

/-- Helper: the filter predicate of `_post_filter_courses`, as the
conjunction of the three per-filter conditions (OR within a filter, AND
across filters, inverse for department exclusion). -/
theorem course_passes_filters_iff (filters : QueryFilters) (m : Metadata) :
    course_passes_filters filters m = true ↔
      (∀ cs, filters.campus = some cs → cs ≠ [] →
        ∃ v ∈ splitStripped (metaGetStr m "campuses" ""), v ∈ cs)
      ∧ (∀ ws, filters.wqb = some ws → ws ≠ [] →
        ∃ v ∈ splitStripped (metaGetStr m "wqb" ""), v ∈ ws)
      ∧ (∀ ds, filters.exclude_departments = some ds → ds ≠ [] →
        metaGetStr m "department" "" ∉ ds) := by
  unfold course_passes_filters
  cases hc : filters.campus with
  | none =>
    cases hw : filters.wqb with
    | none =>
      cases hd : filters.exclude_departments with
      | none => simp
      | some ds =>
        by_cases hde : ds = [] <;>
          simp [hde, List.isEmpty_iff, List.any_eq_true, List.elem_iff]
    | some ws =>
      cases hd : filters.exclude_departments with
      | none =>
        by_cases hwe : ws = [] <;>
          simp [hwe, List.isEmpty_iff, List.any_eq_true, List.elem_iff] <;>
          aesop
      | some ds =>
        by_cases hwe : ws = [] <;> by_cases hde : ds = [] <;>
          simp [hwe, hde, List.isEmpty_iff, List.any_eq_true, List.elem_iff] <;>
          aesop
  | some cs =>
    cases hw : filters.wqb with
    | none =>
      cases hd : filters.exclude_departments with
      | none =>
        by_cases hce : cs = [] <;>
          simp [hce, List.isEmpty_iff, List.any_eq_true, List.elem_iff] <;>
          aesop
      | some ds =>
        by_cases hce : cs = [] <;> by_cases hde : ds = [] <;>
          simp [hce, hde, List.isEmpty_iff, List.any_eq_true, List.elem_iff] <;>
          aesop
    | some ws =>
      cases hd : filters.exclude_departments with
      | none =>
        by_cases hce : cs = [] <;> by_cases hwe : ws = [] <;>
          simp [hce, hwe, List.isEmpty_iff, List.any_eq_true, List.elem_iff] <;>
          aesop
      | some ds =>
        by_cases hce : cs = [] <;> by_cases hwe : ws = [] <;> by_cases hde : ds = [] <;>
          simp [hce, hwe, hde, List.isEmpty_iff, List.any_eq_true, List.elem_iff] <;>
          aesop

/-- Claim C5: a candidate is kept by the post-filter iff it came from the
input list, and, for each active list filter (campus, WQB), at least one
of its own delimiter-split metadata values lies in the filter's requested
set (OR within a filter), with all active filters required simultaneously
(AND across filters), and its single department value is outside the
exclusion set when department exclusion is active. -/
theorem post_filter_membership_iff (courses : List Candidate)
    (filters : QueryFilters) (c : Candidate) :
    c ∈ post_filter_courses courses filters ↔
      c ∈ courses
      ∧ (∀ cs, filters.campus = some cs → cs ≠ [] →
          ∃ v ∈ splitStripped (metaGetStr c.metadata "campuses" ""), v ∈ cs)
      ∧ (∀ ws, filters.wqb = some ws → ws ≠ [] →
          ∃ v ∈ splitStripped (metaGetStr c.metadata "wqb" ""), v ∈ ws)
      ∧ (∀ ds, filters.exclude_departments = some ds → ds ≠ [] →
          metaGetStr c.metadata "department" "" ∉ ds) := by
  unfold post_filter_courses
  rw [List.mem_filter, course_passes_filters_iff]

/-- Witness for C5 at the spec's end-to-end scenario: the `PHIL 100W`
fixture survives `campus = ["Vancouver"]` with `CMPT` excluded. -/
theorem post_filter_membership_iff_witness :
    candidatePhil ∈ post_filter_courses [candidatePhil] filtersVancouverNoCMPT
      ↔ candidatePhil ∈ [candidatePhil]
        ∧ (∀ cs, filtersVancouverNoCMPT.campus = some cs → cs ≠ [] →
            ∃ v ∈ splitStripped (metaGetStr candidatePhil.metadata "campuses" ""), v ∈ cs)
        ∧ (∀ ws, filtersVancouverNoCMPT.wqb = some ws → ws ≠ [] →
            ∃ v ∈ splitStripped (metaGetStr candidatePhil.metadata "wqb" ""), v ∈ ws)
        ∧ (∀ ds, filtersVancouverNoCMPT.exclude_departments = some ds → ds ≠ [] →
            metaGetStr candidatePhil.metadata "department" "" ∉ ds) :=
  post_filter_membership_iff [candidatePhil] filtersVancouverNoCMPT candidatePhil

/-- Claim C6: for every index entry — including raw distances below 0 or
above 1 — the candidate's relevance score is `clamp(1 - distance, 0, 1)`,
hence always within [0,1], and its combined score is
`0.80 · relevance + 0.20 · (elective_score / 25)` with the fixed weight
constants. -/
theorem retriever_relevance_bounds_and_weights (e : IndexEntry) :
    0 ≤ (mkCandidate e).relevance_score
    ∧ (mkCandidate e).relevance_score ≤ 1
    ∧ (mkCandidate e).relevance_score = max 0 (min 1 (1 - e.distance))
    ∧ (mkCandidate e).combined_score =
        RELEVANCE_WEIGHT * (mkCandidate e).relevance_score
          + ELECTIVE_WEIGHT *
              ((metaGetInt e.metadata "elective_score" 0 : ℚ) / MAX_ELECTIVE_SCORE)
    ∧ RELEVANCE_WEIGHT = 80 / 100 ∧ ELECTIVE_WEIGHT = 20 / 100
    ∧ MAX_ELECTIVE_SCORE = 25 := by
  refine ⟨?_, ?_, rfl, rfl, rfl, rfl, rfl⟩
  · show (0 : ℚ) ≤ max 0 (min 1 (1 - e.distance))
    exact le_max_left 0 _
  · show max 0 (min 1 (1 - e.distance)) ≤ (1 : ℚ)
    exact max_le (by norm_num) (min_le_left 1 _)

/-- Helper: the stable-sort comparison is transitive. -/
theorem sort_le_trans (a b c : Nat × Candidate)
    (h1 : sort_le a b) (h2 : sort_le b c) : sort_le a c := by
  simp only [sort_le, decide_eq_true_eq] at h1 h2 ⊢
  rcases h1 with h1 | ⟨he1, hi1⟩ <;> rcases h2 with h2 | ⟨he2, hi2⟩
  · exact Or.inl (by linarith)
  · exact Or.inl (by linarith)
  · exact Or.inl (by linarith)
  · exact Or.inr ⟨by linarith, by omega⟩

/-- Helper: the stable-sort comparison is total. -/
theorem sort_le_total (a b : Nat × Candidate) : sort_le a b || sort_le b a := by
  simp only [sort_le, Bool.or_eq_true, decide_eq_true_eq]
  rcases lt_trichotomy a.2.combined_score b.2.combined_score with h | h | h
  · exact Or.inr (Or.inl h)
  · rcases Nat.le_total a.1 b.1 with hi | hi
    · exact Or.inl (Or.inr ⟨h, hi⟩)
    · exact Or.inr (Or.inr ⟨h.symm, hi⟩)
  · exact Or.inl (Or.inl h)

/-- Claim C7: the survivors of the post-filter are returned sorted by
combined score descending, with ties broken stably by original retrieval
position, and the result is truncated to at most `n_results` elements.
The indexed sorted list `s` realizes the stable sort: it is a permutation
of the position-tagged survivors, and strictly ordered by (combined score
descending, original position ascending). -/
theorem search_results_sorted_stable_truncated (entries : List IndexEntry)
    (filters : QueryFilters) (n_results : Nat) :
    search_courses entries filters n_results =
      (((post_filter_courses (entries.map mkCandidate) filters).enum.mergeSort
          sort_le).map Prod.snd).take n_results
    ∧ (search_courses entries filters n_results).length ≤ n_results
    ∧ List.Pairwise (fun a b : Candidate => b.combined_score ≤ a.combined_score)
        (search_courses entries filters n_results)
    ∧ List.Perm
        ((post_filter_courses (entries.map mkCandidate) filters).enum.mergeSort
          sort_le)
        (post_filter_courses (entries.map mkCandidate) filters).enum
    ∧ List.Pairwise
        (fun a b : Nat × Candidate =>
          b.2.combined_score < a.2.combined_score
            ∨ (a.2.combined_score = b.2.combined_score ∧ a.1 < b.1))
        ((post_filter_courses (entries.map mkCandidate) filters).enum.mergeSort
          sort_le) := by
  have hsorted :
      ((post_filter_courses (entries.map mkCandidate) filters).enum.mergeSort
        sort_le).Pairwise (fun a b => sort_le a b) := by
    apply List.sorted_mergeSort
    · exact sort_le_trans
    · exact sort_le_total
  have hperm :
      List.Perm
        ((post_filter_courses (entries.map mkCandidate) filters).enum.mergeSort
          sort_le)
        (post_filter_courses (entries.map mkCandidate) filters).enum :=
    List.mergeSort_perm _ _
  have hnodup :
      (((post_filter_courses (entries.map mkCandidate) filters).enum.mergeSort
        sort_le).map Prod.fst).Nodup := by
    have h1 :
        ((post_filter_courses (entries.map mkCandidate) filters).enum.map
          Prod.fst).Nodup := by
      rw [List.enum_map_fst]
      exact List.nodup_range _
    exact ((hperm.map Prod.fst).symm).nodup h1
  have hpairneq :
      ((post_filter_courses (entries.map mkCandidate) filters).enum.mergeSort
        sort_le).Pairwise (fun a b => a.1 ≠ b.1) := by
    rw [List.Nodup, List.pairwise_map] at hnodup
    exact hnodup
  have hstrict :
      ((post_filter_courses (entries.map mkCandidate) filters).enum.mergeSort
        sort_le).Pairwise
        (fun a b : Nat × Candidate =>
          b.2.combined_score < a.2.combined_score
            ∨ (a.2.combined_score = b.2.combined_score ∧ a.1 < b.1)) := by
    refine (hsorted.and hpairneq).imp ?_
    rintro a b ⟨hle, hne⟩
    simp only [sort_le, decide_eq_true_eq] at hle
    rcases hle with h | ⟨he, hi⟩
    · exact Or.inl h
    · exact Or.inr ⟨he, lt_of_le_of_ne hi hne⟩
  have hdesc :
      (((post_filter_courses (entries.map mkCandidate) filters).enum.mergeSort
        sort_le).map Prod.snd).Pairwise
        (fun a b : Candidate => b.combined_score ≤ a.combined_score) := by
    rw [List.pairwise_map]
    refine hstrict.imp ?_
    rintro a b (h | ⟨he, _⟩)
    · exact le_of_lt h
    · exact le_of_eq he.symm
  refine ⟨rfl, ?_, ?_, hperm, hstrict⟩
  · exact List.length_take_le _ _
  · exact List.Pairwise.sublist (List.take_sublist _ _) hdesc

/-- Claim C8: every candidate surviving the relevance threshold has
`relevance_score >= min_relevance` (the threshold is applied to the
unrounded score and drops everything below it); every course in the
response arises from such a surviving candidate; and when nothing
survives, `recommend` returns a success response with an empty course
list rather than an error. -/
theorem recommend_threshold_and_empty_success (interp : String)
    (candidates : List Candidate) (top_k : Nat) (min_rel : ℚ)
    (reason : Candidate → String) :
    (∀ c ∈ threshold_candidates candidates min_rel, min_rel ≤ c.relevance_score)
    ∧ (recommend_core interp candidates top_k min_rel reason).courses =
        ((threshold_candidates candidates min_rel).take top_k).map
          (fun c => build_course_result c (reason c))
    ∧ (∀ cr ∈ (recommend_core interp candidates top_k min_rel reason).courses,
        ∃ c ∈ candidates, min_rel ≤ c.relevance_score
          ∧ cr = build_course_result c (reason c))
    ∧ (threshold_candidates candidates min_rel = [] →
        recommend_core interp candidates top_k min_rel reason =
          { success := true, query_interpretation := interp, courses := [] })
    ∧ (recommend_core interp candidates top_k min_rel reason).success = true := by
  refine ⟨?_, rfl, ?_, ?_, rfl⟩
  · intro c hc
    rw [threshold_candidates, List.mem_filter] at hc
    exact of_decide_eq_true hc.2
  · intro cr hcr
    simp only [recommend_core, List.mem_map] at hcr
    obtain ⟨c, hc, rfl⟩ := hcr
    have hc' := List.mem_of_mem_take hc
    rw [threshold_candidates, List.mem_filter] at hc'
    exact ⟨c, hc'.1, of_decide_eq_true hc'.2, rfl⟩
  · intro h
    simp [recommend_core, h]

/-- Witness for C8 on an empty candidate list: thresholding eliminates
everything and the response is success with no courses. -/
theorem recommend_threshold_and_empty_success_witness :
    threshold_candidates [] (3 / 10) = []
    ∧ recommend_core "nothing matched" [] 5 (3 / 10) (fun _ => "r") =
        { success := true, query_interpretation := "nothing matched",
          courses := [] } :=
  ⟨rfl,
   (recommend_threshold_and_empty_success "nothing matched" [] 5 (3 / 10)
      (fun _ => "r")).2.2.2.1 rfl⟩

/-- Helper: if `pySplitF` returns at least two segments, the separator
occurs in the scanned text. -/
theorem pySplitF_two_segments_contains (sep : List Char) :
    ∀ fuel s acc, 2 ≤ (pySplitF sep fuel s acc).length →
      pyContainsSubAux sep s = true := by
  intro fuel
  induction fuel with
  | zero =>
    intro s acc h
    cases s <;> simp [pySplitF] at h
  | succ n ih =>
    intro s acc h
    cases s with
    | nil => simp [pySplitF] at h
    | cons c rest =>
      by_cases hm : (!sep.isEmpty && pyStartsWith sep (c :: rest)) = true
      · unfold pyContainsSubAux
        rw [Bool.and_eq_true] at hm
        rw [hm.2]
        rfl
      · rw [pySplitF, if_neg hm] at h
        unfold pyContainsSubAux
        rw [ih rest (c :: acc) h]
        simp

set_option maxRecDepth 8192 in
/-- Claim C9 counterexample: the stored document of a course in the
documented format with a keywords section. The engine recovers the
description segment alone (between the first and second blank lines),
not everything after the first blank line as the claim states. -/
theorem description_not_after_first_blank :
    pyContainsSub docIntroComputing "\n\n" = true
    ∧ extract_description docIntroComputing = "Introduction to programming."
    ∧ spec_after_first_blank docIntroComputing =
        "Introduction to programming.\n\nGood for students interested in: coding, algorithms"
    ∧ extract_description docIntroComputing ≠ spec_after_first_blank docIntroComputing := by
  exact ⟨by decide, by decide, by decide, by decide⟩

/-- Claim C9 (amended): for every stored document containing a blank
line, the recovered description is the second element of the split on
every `"\n\n"` boundary — the segment between the first and second blank
lines — and this coincides with "everything after the first blank line"
exactly when the document has a single blank-line boundary (in
particular not for documents with a keywords section). -/
theorem description_is_second_split_segment (document : String)
    (h : 2 ≤ (pySplit document "\n\n").length) :
    extract_description document = (pySplit document "\n\n").getD 1 ""
    ∧ ((pySplit document "\n\n").length = 2 →
        extract_description document = spec_after_first_blank document) := by
  have hc : pyContainsSub document "\n\n" = true := by
    unfold pyContainsSub
    exact pySplitF_two_segments_contains "\n\n".data (document.data.length + 1)
      document.data [] (by simpa [pySplit] using h)
  have hbase : extract_description document = (pySplit document "\n\n").getD 1 "" := by
    unfold extract_description
    rw [hc]
    simp only [if_true]
    rw [if_pos h]
  refine ⟨hbase, ?_⟩
  intro h2
  obtain ⟨a, b, hab⟩ := List.length_eq_two.mp h2
  rw [hbase, hab]
  unfold spec_after_first_blank
  rw [hab]
  rfl

/-- Witness for the amended C9 theorem on a two-segment document. -/
theorem description_is_second_split_segment_witness :
    2 ≤ (pySplit "A\n\nB" "\n\n").length
    ∧ (extract_description "A\n\nB" = (pySplit "A\n\nB" "\n\n").getD 1 ""
        ∧ ((pySplit "A\n\nB" "\n\n").length = 2 →
            extract_description "A\n\nB" = spec_after_first_blank "A\n\nB")) :=
  ⟨by decide, description_is_second_split_segment "A\n\nB" (by decide)⟩

/-- Helper: half-even rounding moves a rational down by at most 1/2. -/
theorem roundHalfEven_ge (x : ℚ) : x - 1 / 2 ≤ (roundHalfEven x : ℚ) := by
  unfold roundHalfEven
  split_ifs with h1 h2 h3 <;> push_cast <;>
    linarith [Int.floor_le x, Int.sub_one_lt_floor x]

/-- Claim C10: the `relevance_score` field of each returned course is the
candidate's relevance rounded (half-even) to 3 decimals, while the
threshold is applied beforehand to the unrounded relevance; hence on the
concrete near-threshold instance the returned course's rounded field
0.300 is strictly below the `min_relevance` argument 0.3004, and in
general the shortfall is at most 0.0005. -/
theorem relevance_rounding_vs_threshold :
    (∀ (c : Candidate) (r : String),
        (build_course_result c r).relevance_score = pyRound3 c.relevance_score)
    ∧ (∀ (interp : String) (candidates : List Candidate) (top_k : Nat)
          (min_rel : ℚ) (reason : Candidate → String),
        (recommend_core interp candidates top_k min_rel reason).courses =
          ((candidates.filter (fun c => min_rel ≤ c.relevance_score)).take
            top_k).map (fun c => build_course_result c (reason c)))
    ∧ (∀ rel min_rel : ℚ, min_rel ≤ rel → min_rel - pyRound3 rel ≤ 1 / 2000)
    ∧ (3004 : ℚ) / 10000 ≤ candidateNearThreshold.relevance_score
    ∧ responseNearThreshold.courses =
        [build_course_result candidateNearThreshold "reason"]
    ∧ (build_course_result candidateNearThreshold "reason").relevance_score = 3 / 10
    ∧ (3 : ℚ) / 10 < 3004 / 10000 := by
  have hr3 : pyRound3 (6009 / 20000) = 3 / 10 := by
    have h : (6009 : ℚ) / 20000 * 1000 = 6009 / 20 := by norm_num
    have hf : ⌊(6009 : ℚ) / 20⌋ = 300 := by norm_num
    unfold pyRound3 roundHalfEven
    rw [h, hf]
    norm_num
  refine ⟨fun c r => rfl, fun i cs k m r => rfl, ?_, by norm_num [candidateNearThreshold], ?_, hr3, by norm_num⟩
  · intro rel min_rel h
    have h2 := roundHalfEven_ge (rel * 1000)
    unfold pyRound3
    linarith
  · show (recommend_core "interp" [candidateNearThreshold] 5 (3004 / 10000)
      (fun _ => "reason")).courses = _
    have hkeep : threshold_candidates [candidateNearThreshold] (3004 / 10000) =
        [candidateNearThreshold] := by
      unfold threshold_candidates candidateNearThreshold
      simp only [List.filter]
      norm_num
    simp only [recommend_core, hkeep]
    rfl

/-- Witness for the C10 bound at an exactly-threshold relevance. -/
theorem relevance_rounding_vs_threshold_witness :
    (3 : ℚ) / 10 ≤ 3 / 10 ∧ (3 : ℚ) / 10 - pyRound3 (3 / 10) ≤ 1 / 2000 :=
  ⟨le_refl _,
   relevance_rounding_vs_threshold.2.2.1 (3 / 10) (3 / 10) (le_refl _)⟩

end PickMyElective
